import Mathlib

/-!
Shallow embedding of the risk-quantification engine of the MSP
Risk-to-Proposal tool, together with proofs of the specification claims.

Sources embedded:
- `src/lib/risk/config.ts` (coefficient configuration and banded lookups)
- `src/unnamed/part_002` (industry breach-cost lookups, `breachData`)
- `src/lib/risk/calculator.ts` (single-vulnerability ALE calculator and
  portfolio aggregator)
- `src/types/RiskModels.ts` (data model)

Conventions of the embedding:
- JavaScript numbers are modelled as rationals (`ℚ`); the arithmetic the
  claims are about is exact multiplication and addition of small decimal
  constants, so `ℚ` is the intended idealisation.
- A possibly-absent numeric field (`cvssScore` on a runtime value) is an
  `Option ℚ`; the JavaScript truthiness test `!x` on a number is `true`
  exactly for an absent value or the value `0`, and is embedded as such.
- Thrown `RiskCalculationError`s become `Except` error values carrying the
  vulnerability id and the error `code` string of the source (the message
  text is determined by the code and is not repeated).
- The breach-cost reference dataset (`breachCosts.json`) is not part of the
  source tree; functions reading it take the dataset as an explicit
  parameter (a list of industry records), and claims about the lookup are
  proved for every dataset.
- The client identifier and calculation timestamp of a risk profile are
  produced by nondeterministic primitives (`Math.random`, `new Date()`);
  they are passed to the aggregator as explicit parameters.
- `Array.prototype.sort` (required stable by the language) with comparator
  `(a, b) => b.annualizedLossExpectancy - a.annualizedLossExpectancy` is
  embedded as the stable `List.mergeSort` with the induced boolean order.
-/

/-- Industry enumeration (`IndustryType` in `src/types/RiskModels.ts`). -/
inductive Industry where
  | healthcare
  | financial
  | retail
  | manufacturing
  | professional_services
  | education
  | government
  | technology
  | other
deriving DecidableEq

/-- Severity tags (`VulnerabilitySeverity` in `src/types/RiskModels.ts`). -/
inductive VulnerabilitySeverity where
  | critical
  | high
  | medium
  | low
deriving DecidableEq

/-- Confidence levels (`ConfidenceLevel` in `src/types/RiskModels.ts`). -/
inductive ConfidenceLevel where
  | high
  | medium
  | low
deriving DecidableEq

/-- Vulnerability input record (`Vulnerability` in `src/types/RiskModels.ts`).
The `cvssScore` field is declared as a plain number in the source, but the
calculator defends against its absence at runtime, so it is embedded as an
`Option ℚ`. -/
structure Vulnerability where
  id : String
  name : String
  description : String
  cvssScore : Option ℚ
  severity : VulnerabilitySeverity
  affectedAssets : List String
  cve : Option String
  recommendation : String
deriving DecidableEq

/-- Contact record (`ContactInfo` in `src/types/RiskModels.ts`). -/
structure ContactInfo where
  primaryContact : String
  email : String
  phone : Option String
deriving DecidableEq

/-- Client business context (`ClientContext` in `src/types/RiskModels.ts`). -/
structure ClientContext where
  companyName : String
  industry : Industry
  revenue : ℚ
  employeeCount : ℚ
  criticalSystems : List String
  complianceRequirements : Option (List String)
  contactInfo : ContactInfo
deriving DecidableEq

/-- Breach data source citation tags (`BreachDataSource`). -/
inductive BreachDataSource where
  | ibm_2024
  | verizon_dbir
  | ponemon
deriving DecidableEq

/-- Descriptive sub-fields of an industry breach record (`BreachDataPoints`). -/
structure BreachDataPoints where
  detectTime : ℚ
  containTime : ℚ
  recordsCompromised : ℚ
deriving DecidableEq

/-- One entry of the breach-cost reference dataset (`IndustryBreachData`). -/
structure IndustryBreachData where
  industry : Industry
  costPerRecord : ℚ
  averageTotalCost : ℚ
  source : BreachDataSource
  year : ℕ
  dataPoints : BreachDataPoints
deriving DecidableEq

/-- Exposure factor configuration record (`ExposureFactorConfig` in
`src/lib/risk/config.ts`). -/
structure ExposureFactorConfig where
  critical : ℚ
  high : ℚ
  medium : ℚ
  low : ℚ

/-- The exposure factor constants (`EXPOSURE_FACTORS` in `config.ts`). -/
def EXPOSURE_FACTORS : ExposureFactorConfig :=
  { critical := 1.0
    high := 0.75
    medium := 0.40
    low := 0.15 }

/-- Annual rate of occurrence configuration record (`AROConfig`). -/
structure AROConfig where
  critical : ℚ
  high : ℚ
  medium : ℚ
  low : ℚ

/-- The ARO constants (`ANNUAL_RATE_OCCURRENCE` in `config.ts`). -/
def ANNUAL_RATE_OCCURRENCE : AROConfig :=
  { critical := 0.40
    high := 0.25
    medium := 0.10
    low := 0.03 }

/-- CVSS score threshold record (`CVSS_THRESHOLDS` object shape). -/
structure CVSSThresholds where
  CRITICAL : ℚ
  HIGH : ℚ
  MEDIUM : ℚ
  LOW : ℚ
  MAX : ℚ
  MIN : ℚ

/-- The CVSS threshold constants (`CVSS_THRESHOLDS` in `config.ts`). -/
def CVSS_THRESHOLDS : CVSSThresholds :=
  { CRITICAL := 9.0
    HIGH := 7.0
    MEDIUM := 4.0
    LOW := 0.1
    MAX := 10.0
    MIN := 0.0 }

/-- Records-per-employee configuration record (`RecordsMultiplierConfig`). -/
structure RecordsMultiplierConfig where
  healthcare : ℚ
  financial : ℚ
  retail : ℚ
  manufacturing : ℚ
  professional_services : ℚ
  education : ℚ
  government : ℚ
  technology : ℚ
  other : ℚ

/-- The records-per-employee constants (`RECORDS_PER_EMPLOYEE` in
`config.ts`). -/
def RECORDS_PER_EMPLOYEE : RecordsMultiplierConfig :=
  { healthcare := 2000
    financial := 1500
    retail := 1000
    manufacturing := 500
    professional_services := 800
    education := 1200
    government := 1000
    technology := 900
    other := 800 }

/-- Indexing a `RecordsMultiplierConfig` by an industry key. In the source
this is the bracket lookup `RECORDS_PER_EMPLOYEE[industry as keyof ...]`;
for an industry drawn from the enumeration the lookup always hits a key, so
the `|| RECORDS_PER_EMPLOYEE.other` fallback of the source fires only for
strings outside the enumeration (and for falsy entry values, which do not
occur: every configured multiplier is nonzero). -/
def RecordsMultiplierConfig.lookup (cfg : RecordsMultiplierConfig) :
    Industry → ℚ
  | .healthcare => cfg.healthcare
  | .financial => cfg.financial
  | .retail => cfg.retail
  | .manufacturing => cfg.manufacturing
  | .professional_services => cfg.professional_services
  | .education => cfg.education
  | .government => cfg.government
  | .technology => cfg.technology
  | .other => cfg.other

/-- Confidence scoring weights and thresholds (`CONFIDENCE_SCORING` in
`config.ts`). -/
structure ConfidenceScoring where
  HAS_CVE : ℕ
  VALID_CVSS : ℕ
  INDUSTRY_SPECIFIC : ℕ
  HIGH_SEVERITY_WITH_ASSETS : ℕ
  HIGH_THRESHOLD : ℕ
  MEDIUM_THRESHOLD : ℕ

/-- The confidence scoring constants. -/
def CONFIDENCE_SCORING : ConfidenceScoring :=
  { HAS_CVE := 2
    VALID_CVSS := 2
    INDUSTRY_SPECIFIC := 1
    HIGH_SEVERITY_WITH_ASSETS := 1
    HIGH_THRESHOLD := 5
    MEDIUM_THRESHOLD := 3 }

/-- Banded exposure factor lookup (`getExposureFactor` in `config.ts`). -/
def getExposureFactor (cvssScore : ℚ) : ℚ :=
  if CVSS_THRESHOLDS.CRITICAL ≤ cvssScore then EXPOSURE_FACTORS.critical
  else if CVSS_THRESHOLDS.HIGH ≤ cvssScore then EXPOSURE_FACTORS.high
  else if CVSS_THRESHOLDS.MEDIUM ≤ cvssScore then EXPOSURE_FACTORS.medium
  else EXPOSURE_FACTORS.low

/-- Banded annual rate of occurrence lookup (`getARO` in `config.ts`). -/
def getARO (cvssScore : ℚ) : ℚ :=
  if CVSS_THRESHOLDS.CRITICAL ≤ cvssScore then ANNUAL_RATE_OCCURRENCE.critical
  else if CVSS_THRESHOLDS.HIGH ≤ cvssScore then ANNUAL_RATE_OCCURRENCE.high
  else if CVSS_THRESHOLDS.MEDIUM ≤ cvssScore then ANNUAL_RATE_OCCURRENCE.medium
  else ANNUAL_RATE_OCCURRENCE.low

/-- Records multiplier lookup (`getRecordsMultiplier` in `config.ts`). -/
def getRecordsMultiplier (industry : Industry) : ℚ :=
  RECORDS_PER_EMPLOYEE.lookup industry

/-- Exact-match lookup in the breach-cost dataset (`getIndustryBreachData`
in `src/unnamed/part_002`); the dataset itself (`breachCosts.json`) is not
part of the source tree and is passed as a parameter. -/
def getIndustryBreachData (dataset : List IndustryBreachData)
    (industry : Industry) : Option IndustryBreachData :=
  dataset.find? (fun item => item.industry == industry)

/-- Cost-per-record lookup with double fallback (`getCostPerRecord` in
`src/unnamed/part_002`). The source returns
`fallback?.costPerRecord || 180`, so a fallback entry whose cost is the
falsy number `0` would also yield the hardcoded default. -/
def getCostPerRecord (dataset : List IndustryBreachData)
    (industry : Industry) : ℚ :=
  match getIndustryBreachData dataset industry with
  | some data => data.costPerRecord
  | none =>
    match getIndustryBreachData dataset Industry.other with
    | some fallback =>
      if fallback.costPerRecord = 0 then 180 else fallback.costPerRecord
    | none => 180

/-- Records-at-risk estimate (`estimateRecordsAtRisk` in
`src/unnamed/part_002`). -/
def estimateRecordsAtRisk (employeeCount : ℚ) (industry : Industry) : ℚ :=
  employeeCount * getRecordsMultiplier industry

/-- Error codes of the per-vulnerability calculator
(`RiskCalculationError.code` values in `src/lib/risk/calculator.ts`). -/
inductive CalcErrorCode where
  | MISSING_CVSS
  | INVALID_CVSS
deriving DecidableEq

/-- A per-vulnerability calculation failure: the vulnerability id recorded
in the error `details`, and the error code (the human-readable message of
the source is a function of the code). -/
structure CalcItemError where
  vulnerabilityId : String
  code : CalcErrorCode
deriving DecidableEq

/-- Audit detail record (`RiskCalculationDetails` in `RiskModels.ts`). -/
structure RiskCalculationDetails where
  assetValue : ℚ
  exposureFactor : ℚ
  breachProbability : ℚ
  industryBreachCost : ℚ
deriving DecidableEq

/-- Per-vulnerability risk calculation result (`RiskCalculation`). -/
structure RiskCalculation where
  vulnerabilityId : String
  vulnerabilityName : String
  singleLossExpectancy : ℚ
  annualRateOccurrence : ℚ
  annualizedLossExpectancy : ℚ
  confidenceLevel : ConfidenceLevel
  calculation : RiskCalculationDetails
deriving DecidableEq

/-- JavaScript truthiness of the optional `cve` string field: an absent
value and the empty string are falsy. -/
def cveTruthy : Option String → Bool
  | none => false
  | some s => s ≠ ""

/-- The in-range test `cvssScore >= MIN && cvssScore <= MAX` of
`determineConfidenceLevel`; on an absent score both comparisons are false. -/
def cvssInRange : Option ℚ → Bool
  | none => false
  | some s => CVSS_THRESHOLDS.MIN ≤ s ∧ s ≤ CVSS_THRESHOLDS.MAX

/-- Confidence level rule (`determineConfidenceLevel` in `calculator.ts`). -/
def determineConfidenceLevel (vulnerability : Vulnerability)
    (clientContext : ClientContext) : ConfidenceLevel :=
  let s1 : ℕ :=
    if cveTruthy vulnerability.cve then CONFIDENCE_SCORING.HAS_CVE else 0
  let s2 : ℕ :=
    if cvssInRange vulnerability.cvssScore then
      s1 + CONFIDENCE_SCORING.VALID_CVSS
    else s1
  let s3 : ℕ :=
    if clientContext.industry ≠ Industry.other then
      s2 + CONFIDENCE_SCORING.INDUSTRY_SPECIFIC
    else s2
  let s4 : ℕ :=
    if (vulnerability.severity = .critical ∨ vulnerability.severity = .high) ∧
        vulnerability.affectedAssets.length > 0 then
      s3 + CONFIDENCE_SCORING.HIGH_SEVERITY_WITH_ASSETS
    else s3
  if CONFIDENCE_SCORING.HIGH_THRESHOLD ≤ s4 then .high
  else if CONFIDENCE_SCORING.MEDIUM_THRESHOLD ≤ s4 then .medium
  else .low

/-- Single-vulnerability ALE calculation (`calculateALE` in
`src/lib/risk/calculator.ts`). The guard `if (!vulnerability.cvssScore)`
of the source is a JavaScript truthiness test: it raises `MISSING_CVSS`
both for an absent score and for the score `0`. -/
def calculateALE (dataset : List IndustryBreachData)
    (vulnerability : Vulnerability) (clientContext : ClientContext) :
    Except CalcItemError RiskCalculation :=
  match vulnerability.cvssScore with
  | none => .error ⟨vulnerability.id, .MISSING_CVSS⟩
  | some score =>
    if score = 0 then .error ⟨vulnerability.id, .MISSING_CVSS⟩
    else if score < CVSS_THRESHOLDS.MIN ∨ CVSS_THRESHOLDS.MAX < score then
      .error ⟨vulnerability.id, .INVALID_CVSS⟩
    else
      let industryBreachCost := getCostPerRecord dataset clientContext.industry
      let estimatedRecords :=
        estimateRecordsAtRisk clientContext.employeeCount clientContext.industry
      let exposureFactor := getExposureFactor score
      let assetValue := estimatedRecords * industryBreachCost
      let singleLossExpectancy := assetValue * exposureFactor
      let annualRateOccurrence := getARO score
      let annualizedLossExpectancy := singleLossExpectancy * annualRateOccurrence
      let confidenceLevel := determineConfidenceLevel vulnerability clientContext
      .ok
        { vulnerabilityId := vulnerability.id
          vulnerabilityName := vulnerability.name
          singleLossExpectancy := singleLossExpectancy
          annualRateOccurrence := annualRateOccurrence
          annualizedLossExpectancy := annualizedLossExpectancy
          confidenceLevel := confidenceLevel
          calculation :=
            { assetValue := assetValue
              exposureFactor := exposureFactor
              breachProbability := annualRateOccurrence
              industryBreachCost := industryBreachCost } }

/-- Batch-level failures of the aggregator (`RiskCalculationError.code`
values raised by `calculateTotalRisk`). -/
inductive BatchCalcError where
  | NO_VULNERABILITIES
  | ALL_CALCULATIONS_FAILED (errors : List CalcItemError)
deriving DecidableEq

/-- Severity-bucketed ALE totals (`RiskByCategory` in `RiskModels.ts`). -/
structure RiskByCategory where
  critical : ℚ
  high : ℚ
  medium : ℚ
  low : ℚ
deriving DecidableEq

/-- The accumulator update `acc[vuln.severity] += x` of the severity
grouping in `calculateTotalRisk`. -/
def RiskByCategory.add (acc : RiskByCategory)
    (severity : VulnerabilitySeverity) (x : ℚ) : RiskByCategory :=
  match severity with
  | .critical => { acc with critical := acc.critical + x }
  | .high => { acc with high := acc.high + x }
  | .medium => { acc with medium := acc.medium + x }
  | .low => { acc with low := acc.low + x }

/-- Projection of a severity bucket, used to state claims uniformly. -/
def RiskByCategory.get (acc : RiskByCategory) :
    VulnerabilitySeverity → ℚ
  | .critical => acc.critical
  | .high => acc.high
  | .medium => acc.medium
  | .low => acc.low

/-- Composite risk profile (`TotalRiskProfile` in `RiskModels.ts`). -/
structure TotalRiskProfile where
  clientId : String
  calculationDate : String
  individualRisks : List RiskCalculation
  totalALE : ℚ
  riskByCategory : RiskByCategory
  topRisks : List RiskCalculation
deriving DecidableEq

/-- The boolean order induced by the sort comparator
`(a, b) => b.annualizedLossExpectancy - a.annualizedLossExpectancy`:
`a` may precede `b` exactly when the comparator is nonpositive. -/
def aleDescLE (a b : RiskCalculation) : Bool :=
  b.annualizedLossExpectancy ≤ a.annualizedLossExpectancy

/-- One step of the aggregator's accumulation loop over the vulnerability
list: a success is appended to the risk list, a failure to the error
list (the `try`/`catch` body of `calculateTotalRisk`). -/
def accumulateRisk (dataset : List IndustryBreachData)
    (clientContext : ClientContext)
    (acc : List RiskCalculation × List CalcItemError)
    (vulnerability : Vulnerability) :
    List RiskCalculation × List CalcItemError :=
  match calculateALE dataset vulnerability clientContext with
  | .ok risk => (acc.1 ++ [risk], acc.2)
  | .error e => (acc.1, acc.2 ++ [e])

/-- The total-ALE reduction of `calculateTotalRisk`:
`individualRisks.reduce((sum, risk) => sum + risk.annualizedLossExpectancy, 0)`. -/
def totalALEOf (individualRisks : List RiskCalculation) : ℚ :=
  individualRisks.foldl (fun sum risk => sum + risk.annualizedLossExpectancy) 0

/-- One step of the severity-grouping reduction of `calculateTotalRisk`:
look up the risk calculated for this vulnerability by id and, when found,
add its ALE to the bucket of the vulnerability's declared severity. -/
def bucketStep (individualRisks : List RiskCalculation)
    (acc : RiskByCategory) (vuln : Vulnerability) : RiskByCategory :=
  match individualRisks.find? (fun r => r.vulnerabilityId == vuln.id) with
  | some risk => acc.add vuln.severity risk.annualizedLossExpectancy
  | none => acc

/-- The severity-grouping reduction of `calculateTotalRisk`. -/
def riskByCategoryOf (individualRisks : List RiskCalculation)
    (vulnerabilities : List Vulnerability) : RiskByCategory :=
  vulnerabilities.foldl (bucketStep individualRisks) ⟨0, 0, 0, 0⟩

/-- The top-risk selection of `calculateTotalRisk`: stable sort descending
by ALE, then the first five. -/
def topRisksOf (individualRisks : List RiskCalculation) :
    List RiskCalculation :=
  (individualRisks.mergeSort aleDescLE).take 5

/-- Portfolio aggregation (`calculateTotalRisk` in
`src/lib/risk/calculator.ts`). The nondeterministically generated client
identifier (`generateClientId`) and the timestamp
(`new Date().toISOString()`) are passed in as `clientId` and
`calculationDate`. -/
def calculateTotalRisk (dataset : List IndustryBreachData)
    (clientId calculationDate : String)
    (vulnerabilities : List Vulnerability) (clientContext : ClientContext) :
    Except BatchCalcError TotalRiskProfile :=
  if vulnerabilities.length = 0 then .error .NO_VULNERABILITIES
  else
    let acc := vulnerabilities.foldl (accumulateRisk dataset clientContext) ([], [])
    let individualRisks := acc.1
    let errors := acc.2
    if individualRisks.length = 0 then
      .error (.ALL_CALCULATIONS_FAILED errors)
    else
      .ok
        { clientId := clientId
          calculationDate := calculationDate
          individualRisks := individualRisks
          totalALE := totalALEOf individualRisks
          riskByCategory := riskByCategoryOf individualRisks vulnerabilities
          topRisks := topRisksOf individualRisks }

/-- Spec-side abbreviation: the successful calculations of a vulnerability
list, in input order. -/
def successfulRisks (dataset : List IndustryBreachData)
    (clientContext : ClientContext) (vulnerabilities : List Vulnerability) :
    List RiskCalculation :=
  vulnerabilities.filterMap
    (fun v => (calculateALE dataset v clientContext).toOption)

/-- Spec-side abbreviation: the per-item failures of a vulnerability list,
in input order. -/
def failedRisks (dataset : List IndustryBreachData)
    (clientContext : ClientContext) (vulnerabilities : List Vulnerability) :
    List CalcItemError :=
  vulnerabilities.filterMap
    (fun v =>
      match calculateALE dataset v clientContext with
      | .error e => some e
      | .ok _ => none)

/-- Spec-side abbreviation: the sum of the annualized loss expectancies of
a list of risk calculations. -/
def sumALE (risks : List RiskCalculation) : ℚ :=
  (risks.map (fun r => r.annualizedLossExpectancy)).sum

/-- Example client context used by concrete witnesses: a 50-employee
healthcare company (the configured records multiplier for healthcare is
2000, so 100,000 records are at risk). -/
def exampleContext : ClientContext :=
  { companyName := "Acme Medical"
    industry := .healthcare
    revenue := 5000000
    employeeCount := 50
    criticalSystems := ["ehr"]
    complianceRequirements := none
    contactInfo := { primaryContact := "Pat", email := "pat@acme.example", phone := none } }

/-- Example vulnerability with a critical in-range CVSS score of 9.8. -/
def exampleVuln : Vulnerability :=
  { id := "vuln-crit"
    name := "RCE in portal"
    description := "remote code execution"
    cvssScore := some 9.8
    severity := .critical
    affectedAssets := ["server"]
    cve := some "CVE-2024-0001"
    recommendation := "patch" }

/-- Example vulnerability whose CVSS score is the in-range value 0.0. -/
def exampleVulnZero : Vulnerability :=
  { id := "vuln-zero"
    name := "informational finding"
    description := "no impact"
    cvssScore := some 0
    severity := .low
    affectedAssets := []
    cve := none
    recommendation := "none" }

/-- Example vulnerability with the out-of-range CVSS score 15.0. -/
def exampleVulnHigh : Vulnerability :=
  { id := "vuln-high"
    name := "malformed entry"
    description := "score out of range"
    cvssScore := some 15
    severity := .high
    affectedAssets := ["db"]
    cve := none
    recommendation := "re-scan" }

/-- Example vulnerability with no CVSS score at all. -/
def exampleVulnNoScore : Vulnerability :=
  { id := "vuln-none"
    name := "unscored finding"
    description := "no score supplied"
    cvssScore := none
    severity := .medium
    affectedAssets := ["app"]
    cve := none
    recommendation := "score it" }

/-- The risk calculation that `calculateALE` produces for `exampleVuln`
against `exampleContext` with an empty reference dataset (cost per record
falls back to 180): 100,000 records × 180 = 18,000,000 asset value,
exposure factor 1.0, ARO 0.40, ALE 7,200,000. -/
def exampleRisk : RiskCalculation :=
  { vulnerabilityId := "vuln-crit"
    vulnerabilityName := "RCE in portal"
    singleLossExpectancy := 18000000
    annualRateOccurrence := 0.40
    annualizedLossExpectancy := 7200000
    confidenceLevel := .high
    calculation :=
      { assetValue := 18000000
        exposureFactor := 1.0
        breachProbability := 0.40
        industryBreachCost := 180 } }

/-- The profile `calculateTotalRisk` produces for the batch
`[exampleVuln, exampleVulnHigh]` (one success, one out-of-range failure). -/
def exampleProfile : TotalRiskProfile :=
  { clientId := "client"
    calculationDate := "date"
    individualRisks := [exampleRisk]
    totalALE := 7200000
    riskByCategory := { critical := 7200000, high := 0, medium := 0, low := 0 }
    topRisks := [exampleRisk] }

/-- The accumulation loop of the aggregator produces the successes and the
failures of the batch, each in input order, appended to the accumulator. -/
theorem foldl_accumulateRisk (dataset : List IndustryBreachData)
    (clientContext : ClientContext) (l : List Vulnerability) :
    ∀ acc, l.foldl (accumulateRisk dataset clientContext) acc =
      (acc.1 ++ successfulRisks dataset clientContext l,
       acc.2 ++ failedRisks dataset clientContext l) := by
  induction l with
  | nil =>
    intro acc
    simp [successfulRisks, failedRisks]
  | cons v l ih =>
    intro acc
    rw [List.foldl_cons, ih]
    cases h : calculateALE dataset v clientContext with
    | ok r =>
      simp [accumulateRisk, h, successfulRisks, failedRisks,
        List.filterMap_cons, Except.toOption]
    | error e =>
      simp [accumulateRisk, h, successfulRisks, failedRisks,
        List.filterMap_cons, Except.toOption]

/-- Unfolded form of the aggregator: empty input fails with
`NO_VULNERABILITIES`; no successes fails with `ALL_CALCULATIONS_FAILED`
carrying the per-item failures; otherwise the profile is assembled from
the successes. -/
theorem calculateTotalRisk_eq (dataset : List IndustryBreachData)
    (clientId calculationDate : String)
    (vulnerabilities : List Vulnerability) (clientContext : ClientContext) :
    calculateTotalRisk dataset clientId calculationDate vulnerabilities clientContext =
      if vulnerabilities.length = 0 then .error .NO_VULNERABILITIES
      else if (successfulRisks dataset clientContext vulnerabilities).length = 0 then
        .error (.ALL_CALCULATIONS_FAILED (failedRisks dataset clientContext vulnerabilities))
      else
        .ok
          { clientId := clientId
            calculationDate := calculationDate
            individualRisks := successfulRisks dataset clientContext vulnerabilities
            totalALE := totalALEOf (successfulRisks dataset clientContext vulnerabilities)
            riskByCategory :=
              riskByCategoryOf (successfulRisks dataset clientContext vulnerabilities)
                vulnerabilities
            topRisks := topRisksOf (successfulRisks dataset clientContext vulnerabilities) } := by
  simp only [calculateTotalRisk, foldl_accumulateRisk, List.nil_append]

/-- Inversion of a successful aggregation: the profile's fields are the
assembled values over the successes of the batch. -/
theorem calculateTotalRisk_ok_inv {dataset : List IndustryBreachData}
    {clientId calculationDate : String}
    {vulnerabilities : List Vulnerability} {clientContext : ClientContext}
    {p : TotalRiskProfile}
    (h : calculateTotalRisk dataset clientId calculationDate vulnerabilities
        clientContext = .ok p) :
    p.individualRisks = successfulRisks dataset clientContext vulnerabilities ∧
    p.totalALE = totalALEOf (successfulRisks dataset clientContext vulnerabilities) ∧
    p.riskByCategory =
      riskByCategoryOf (successfulRisks dataset clientContext vulnerabilities)
        vulnerabilities ∧
    p.topRisks = topRisksOf (successfulRisks dataset clientContext vulnerabilities) := by
  rw [calculateTotalRisk_eq] at h
  split at h
  · exact absurd h (by simp)
  · split at h
    · exact absurd h (by simp)
    · rw [Except.ok.injEq] at h
      subst h
      exact ⟨rfl, rfl, rfl, rfl⟩

/-- Folding addition of ALE values starting from `a` adds the list's ALE
sum to `a`. -/
theorem foldl_add_ale (l : List RiskCalculation) :
    ∀ a : ℚ, l.foldl (fun sum risk => sum + risk.annualizedLossExpectancy) a =
      a + sumALE l := by
  induction l with
  | nil =>
    intro a
    simp [sumALE]
  | cons r l ih =>
    intro a
    simp [List.foldl_cons, ih, sumALE, add_assoc]

/-- The aggregator's total-ALE reduction computes the ALE sum. -/
theorem totalALEOf_eq_sumALE (l : List RiskCalculation) :
    totalALEOf l = sumALE l := by
  simp [totalALEOf, foldl_add_ale]

/-- A successful single-vulnerability calculation presupposes a present
CVSS score. -/
theorem calculateALE_ok_cvssScore {dataset : List IndustryBreachData}
    {v : Vulnerability} {c : ClientContext} {r : RiskCalculation}
    (h : calculateALE dataset v c = .ok r) : ∃ s, v.cvssScore = some s := by
  cases hs : v.cvssScore with
  | none => simp [calculateALE, hs] at h
  | some s => exact ⟨s, rfl⟩

/-- Field-level inversion of a successful single-vulnerability
calculation. -/
theorem calculateALE_ok_fields {dataset : List IndustryBreachData}
    {v : Vulnerability} {c : ClientContext} {s : ℚ} {r : RiskCalculation}
    (hs : v.cvssScore = some s) (h : calculateALE dataset v c = .ok r) :
    r.vulnerabilityId = v.id ∧
    r.singleLossExpectancy =
      estimateRecordsAtRisk c.employeeCount c.industry *
        getCostPerRecord dataset c.industry * getExposureFactor s ∧
    r.annualRateOccurrence = getARO s ∧
    r.annualizedLossExpectancy =
      r.singleLossExpectancy * r.annualRateOccurrence ∧
    r.calculation.assetValue =
      estimateRecordsAtRisk c.employeeCount c.industry *
        getCostPerRecord dataset c.industry ∧
    r.calculation.breachProbability = r.annualRateOccurrence ∧
    r.calculation.industryBreachCost = getCostPerRecord dataset c.industry := by
  simp only [calculateALE, hs] at h
  split at h
  · exact absurd h (by simp)
  · split at h
    · exact absurd h (by simp)
    · rw [Except.ok.injEq] at h
      subst h
      exact ⟨rfl, rfl, rfl, rfl, rfl, rfl, rfl⟩

/-- The vulnerability id is copied into a successful calculation. -/
theorem calculateALE_ok_id {dataset : List IndustryBreachData}
    {v : Vulnerability} {c : ClientContext} {r : RiskCalculation}
    (h : calculateALE dataset v c = .ok r) : r.vulnerabilityId = v.id := by
  obtain ⟨s, hs⟩ := calculateALE_ok_cvssScore h
  exact (calculateALE_ok_fields hs h).1

/-- C1: for every vulnerability and client context for which the
single-vulnerability calculation succeeds, the resulting risk calculation
satisfies `annualizedLossExpectancy = singleLossExpectancy ×
annualRateOccurrence` exactly, and the audit field `breachProbability`
equals `annualRateOccurrence`. -/
theorem spec_C1_ale_is_sle_times_aro {dataset : List IndustryBreachData}
    {v : Vulnerability} {c : ClientContext} {r : RiskCalculation}
    (h : calculateALE dataset v c = .ok r) :
    r.annualizedLossExpectancy =
      r.singleLossExpectancy * r.annualRateOccurrence ∧
    r.calculation.breachProbability = r.annualRateOccurrence := by
  obtain ⟨s, hs⟩ := calculateALE_ok_cvssScore h
  obtain ⟨-, -, -, h4, -, h6, -⟩ := calculateALE_ok_fields hs h
  exact ⟨h4, h6⟩

/-- Witness for C1 at the concrete example input. -/
theorem spec_C1_witness :
    exampleRisk.annualizedLossExpectancy =
      exampleRisk.singleLossExpectancy * exampleRisk.annualRateOccurrence ∧
    exampleRisk.calculation.breachProbability =
      exampleRisk.annualRateOccurrence :=
  @spec_C1_ale_is_sle_times_aro [] exampleVuln exampleContext exampleRisk
    (by
      norm_num +decide [calculateALE, getCostPerRecord, getIndustryBreachData,
        estimateRecordsAtRisk, getRecordsMultiplier, RECORDS_PER_EMPLOYEE,
        RecordsMultiplierConfig.lookup, getExposureFactor, getARO,
        EXPOSURE_FACTORS, ANNUAL_RATE_OCCURRENCE, CVSS_THRESHOLDS,
        determineConfidenceLevel, cveTruthy, cvssInRange, CONFIDENCE_SCORING,
        exampleVuln, exampleContext, exampleRisk])

/-- C2: whenever `calculateALE` succeeds on a vulnerability with CVSS score
`s`, the produced SLE equals `(employeeCount × recordsPerEmployee(industry))
× costPerRecord(industry) × exposureFactor(s)` with the configuration
lookups, and the audit record's `assetValue` equals
`employeeCount × recordsPerEmployee(industry) × costPerRecord(industry)`. -/
theorem spec_C2_sle_formula {dataset : List IndustryBreachData}
    {v : Vulnerability} {c : ClientContext} {s : ℚ} {r : RiskCalculation}
    (hs : v.cvssScore = some s) (h : calculateALE dataset v c = .ok r) :
    r.singleLossExpectancy =
      c.employeeCount * getRecordsMultiplier c.industry *
        getCostPerRecord dataset c.industry * getExposureFactor s ∧
    r.calculation.assetValue =
      c.employeeCount * getRecordsMultiplier c.industry *
        getCostPerRecord dataset c.industry := by
  obtain ⟨-, h2, -, -, h5, -, -⟩ := calculateALE_ok_fields hs h
  constructor
  · rw [h2]; rfl
  · rw [h5]; rfl

/-- Witness for C2 at the concrete example input. -/
theorem spec_C2_witness :
    exampleRisk.singleLossExpectancy =
      exampleContext.employeeCount *
        getRecordsMultiplier exampleContext.industry *
        getCostPerRecord [] exampleContext.industry *
        getExposureFactor 9.8 ∧
    exampleRisk.calculation.assetValue =
      exampleContext.employeeCount *
        getRecordsMultiplier exampleContext.industry *
        getCostPerRecord [] exampleContext.industry :=
  @spec_C2_sle_formula [] exampleVuln exampleContext 9.8 exampleRisk rfl
    (by
      norm_num +decide [calculateALE, getCostPerRecord, getIndustryBreachData,
        estimateRecordsAtRisk, getRecordsMultiplier, RECORDS_PER_EMPLOYEE,
        RecordsMultiplierConfig.lookup, getExposureFactor, getARO,
        EXPOSURE_FACTORS, ANNUAL_RATE_OCCURRENCE, CVSS_THRESHOLDS,
        determineConfidenceLevel, cveTruthy, cvssInRange, CONFIDENCE_SCORING,
        exampleVuln, exampleContext, exampleRisk])

/-- C3: evaluation of the code at the failing input. The CVSS score `0.0`
lies in the valid range `[MIN, MAX] = [0.0, 10.0]`, so by the claim the
calculation should succeed; the code instead raises `MISSING_CVSS`,
because the guard `if (!vulnerability.cvssScore)` treats the present score
`0` as absent (JavaScript falsiness). -/
theorem spec_C3_zero_score_rejected :
    exampleVulnZero.cvssScore = some 0 ∧
    CVSS_THRESHOLDS.MIN ≤ 0 ∧ (0 : ℚ) ≤ CVSS_THRESHOLDS.MAX ∧
    calculateALE [] exampleVulnZero exampleContext =
      .error ⟨"vuln-zero", .MISSING_CVSS⟩ := by
  refine ⟨rfl, by norm_num [CVSS_THRESHOLDS], by norm_num [CVSS_THRESHOLDS], ?_⟩
  norm_num +decide [calculateALE, exampleVulnZero]

/-- C4: evaluation of the code at the failing input. In the batch
`[exampleVulnZero, exampleVulnHigh]` exactly one vulnerability
(`exampleVulnHigh`, score 15.0) has an out-of-range CVSS score — the other
score, 0.0, lies inside `[0.0, 10.0]` — so by the claim the batch should
yield a successful profile with one individual risk; the code instead
fails the in-range score 0 with `MISSING_CVSS` (JavaScript falsiness) and
raises the batch-level error `ALL_CALCULATIONS_FAILED`. -/
theorem spec_C4_batch_with_one_bad_score :
    exampleVulnZero.cvssScore = some 0 ∧
    exampleVulnHigh.cvssScore = some 15 ∧
    calculateTotalRisk [] "client" "date"
        [exampleVulnZero, exampleVulnHigh] exampleContext =
      .error (.ALL_CALCULATIONS_FAILED
        [⟨"vuln-zero", .MISSING_CVSS⟩, ⟨"vuln-high", .INVALID_CVSS⟩]) := by
  refine ⟨rfl, rfl, ?_⟩
  norm_num +decide [calculateTotalRisk, accumulateRisk, calculateALE,
    CVSS_THRESHOLDS, exampleVulnZero, exampleVulnHigh, exampleContext]

/-- C5: for every successful aggregation, `totalALE` equals the sum of
`annualizedLossExpectancy` over exactly the entries of `individualRisks`;
failed vulnerabilities contribute nothing. -/
theorem spec_C5_totalALE_is_sum {dataset : List IndustryBreachData}
    {clientId calculationDate : String}
    {vulnerabilities : List Vulnerability} {clientContext : ClientContext}
    {p : TotalRiskProfile}
    (h : calculateTotalRisk dataset clientId calculationDate vulnerabilities
        clientContext = .ok p) :
    p.totalALE = sumALE p.individualRisks := by
  obtain ⟨h1, h2, -, -⟩ := calculateTotalRisk_ok_inv h
  rw [h2, h1, totalALEOf_eq_sumALE]

/-- Witness for C5 at the concrete example batch (one success, one
failure). -/
theorem spec_C5_witness :
    exampleProfile.totalALE = sumALE exampleProfile.individualRisks :=
  @spec_C5_totalALE_is_sum [] "client" "date"
    [exampleVuln, exampleVulnHigh] exampleContext exampleProfile
    (by
      norm_num +decide [calculateTotalRisk, accumulateRisk, calculateALE,
        getCostPerRecord, getIndustryBreachData, estimateRecordsAtRisk,
        getRecordsMultiplier, RECORDS_PER_EMPLOYEE,
        RecordsMultiplierConfig.lookup, getExposureFactor, getARO,
        EXPOSURE_FACTORS, ANNUAL_RATE_OCCURRENCE, CVSS_THRESHOLDS,
        determineConfidenceLevel, cveTruthy, cvssInRange, CONFIDENCE_SCORING,
        totalALEOf, riskByCategoryOf, bucketStep, RiskByCategory.add,
        topRisksOf, aleDescLE, List.mergeSort,
        exampleVuln, exampleVulnHigh, exampleContext, exampleRisk,
        exampleProfile])

/-- C7: the coefficient lookups are total functions on CVSS scores and
band identically at 9.0 / 7.0 / 4.0, returning the configured constants:
score ≥ 9 gives exposure factor 1.00 and ARO 0.40; score ≥ 7 gives 0.75
and 0.25; score ≥ 4 gives 0.40 and 0.10; anything lower gives 0.15 and
0.03. Stated as an unconditional equation on every rational score, so no
score can cause a lookup failure. -/
theorem spec_C7_banded_lookups (s : ℚ) :
    getExposureFactor s =
      (if 9 ≤ s then 1
       else if 7 ≤ s then 0.75
       else if 4 ≤ s then 0.40
       else 0.15) ∧
    getARO s =
      (if 9 ≤ s then 0.40
       else if 7 ≤ s then 0.25
       else if 4 ≤ s then 0.10
       else 0.03) := by
  constructor <;>
    · simp only [getExposureFactor, getARO, CVSS_THRESHOLDS,
        EXPOSURE_FACTORS, ANNUAL_RATE_OCCURRENCE]
      norm_num

/-- C8: the cost-per-record lookup resolves for every industry via the
double fallback, provided the dataset's cost figures are positive (as the
data model requires): an exact matching entry's value when present,
otherwise the `other` entry's value when that entry is present, otherwise
the hardcoded default 180 — never an error. -/
theorem spec_C8_cost_per_record_fallback (dataset : List IndustryBreachData)
    (hpos : ∀ e ∈ dataset, 0 < e.costPerRecord) (industry : Industry) :
    (∀ d, getIndustryBreachData dataset industry = some d →
        getCostPerRecord dataset industry = d.costPerRecord) ∧
    (getIndustryBreachData dataset industry = none →
      (∀ f, getIndustryBreachData dataset Industry.other = some f →
          getCostPerRecord dataset industry = f.costPerRecord) ∧
      (getIndustryBreachData dataset Industry.other = none →
          getCostPerRecord dataset industry = 180)) := by
  refine ⟨?_, ?_⟩
  · intro d hd
    simp [getCostPerRecord, hd]
  · intro hnone
    refine ⟨?_, ?_⟩
    · intro f hf
      have hmem : f ∈ dataset := by
        have hf' := hf
        simp only [getIndustryBreachData] at hf'
        exact List.mem_of_find?_eq_some hf'
      have hne : ¬f.costPerRecord = 0 := (hpos f hmem).ne'
      simp [getCostPerRecord, hnone, hf, hne]
    · intro hfnone
      simp [getCostPerRecord, hnone, hfnone]

/-- Example breach-cost dataset containing only an `other` entry, used to
exercise the first fallback of the cost lookup. -/
def exampleDataset : List IndustryBreachData :=
  [{ industry := .other
     costPerRecord := 165
     averageTotalCost := 4350000
     source := .ibm_2024
     year := 2024
     dataPoints := { detectTime := 200, containTime := 70, recordsCompromised := 25000 } }]

/-- Witness for C8: an industry absent from the dataset resolves to the
`other` entry's value, and with an empty dataset to the hardcoded 180. -/
theorem spec_C8_witness :
    getCostPerRecord exampleDataset Industry.healthcare = 165 ∧
    getCostPerRecord [] Industry.healthcare = 180 :=
  ⟨((spec_C8_cost_per_record_fallback exampleDataset
        (by norm_num [exampleDataset]) Industry.healthcare).2 rfl).1
      { industry := .other
        costPerRecord := 165
        averageTotalCost := 4350000
        source := .ibm_2024
        year := 2024
        dataPoints := { detectTime := 200, containTime := 70, recordsCompromised := 25000 } }
      rfl,
   ((spec_C8_cost_per_record_fallback []
        (by simp) Industry.healthcare).2 rfl).2 rfl⟩

/-- C9 (amended): a successful aggregation exposes exactly the successful
risk calculations as `individualRisks`; the per-item failures of the
discarded vulnerabilities are exposed only through the
`ALL_CALCULATIONS_FAILED` error, which occurs only when every item
failed. -/
theorem spec_C9_failures_not_in_profile (dataset : List IndustryBreachData)
    (clientId calculationDate : String)
    (vulnerabilities : List Vulnerability) (clientContext : ClientContext) :
    (∀ p, calculateTotalRisk dataset clientId calculationDate vulnerabilities
        clientContext = .ok p →
      p.individualRisks = successfulRisks dataset clientContext vulnerabilities) ∧
    (∀ errors, calculateTotalRisk dataset clientId calculationDate
        vulnerabilities clientContext =
          .error (.ALL_CALCULATIONS_FAILED errors) →
      errors = failedRisks dataset clientContext vulnerabilities) := by
  constructor
  · intro p h
    exact (calculateTotalRisk_ok_inv h).1
  · intro errors h
    rw [calculateTotalRisk_eq] at h
    split at h
    · simp at h
    · split at h
      · rw [Except.error.injEq, BatchCalcError.ALL_CALCULATIONS_FAILED.injEq] at h
        exact h.symm
      · simp at h

/-- Witness for C9's amended statement, at a partially failing batch
(successes exposed) and at a totally failing batch (failures carried by
the batch error). -/
theorem spec_C9_witness :
    exampleProfile.individualRisks =
      successfulRisks [] exampleContext [exampleVuln, exampleVulnHigh] ∧
    ([⟨"vuln-zero", .MISSING_CVSS⟩, ⟨"vuln-high", .INVALID_CVSS⟩] :
        List CalcItemError) =
      failedRisks [] exampleContext [exampleVulnZero, exampleVulnHigh] :=
  ⟨(spec_C9_failures_not_in_profile [] "client" "date"
        [exampleVuln, exampleVulnHigh] exampleContext).1 exampleProfile
      (by
        norm_num +decide [calculateTotalRisk, accumulateRisk, calculateALE,
          getCostPerRecord, getIndustryBreachData, estimateRecordsAtRisk,
          getRecordsMultiplier, RECORDS_PER_EMPLOYEE,
          RecordsMultiplierConfig.lookup, getExposureFactor, getARO,
          EXPOSURE_FACTORS, ANNUAL_RATE_OCCURRENCE, CVSS_THRESHOLDS,
          determineConfidenceLevel, cveTruthy, cvssInRange,
          CONFIDENCE_SCORING, totalALEOf, riskByCategoryOf, bucketStep,
          RiskByCategory.add, topRisksOf, aleDescLE, List.mergeSort,
          exampleVuln, exampleVulnHigh, exampleContext, exampleRisk,
          exampleProfile]),
   (spec_C9_failures_not_in_profile [] "client" "date"
        [exampleVulnZero, exampleVulnHigh] exampleContext).2
      [⟨"vuln-zero", .MISSING_CVSS⟩, ⟨"vuln-high", .INVALID_CVSS⟩]
      (by
        norm_num +decide [calculateTotalRisk, accumulateRisk, calculateALE,
          CVSS_THRESHOLDS, exampleVulnZero, exampleVulnHigh,
          exampleContext])⟩

/-- Counterexample for C9 as stated: two batches, each consisting of the
same successful vulnerability plus one discarded failing vulnerability,
where the two failing items differ in identifier and in failure reason
(`INVALID_CVSS` for an out-of-range score versus `MISSING_CVSS` for an
absent score), produce byte-identical successful profiles — so no part of
the result exposes the discarded item's identifier or reason to the
caller. -/
theorem spec_C9_counterexample :
    calculateALE [] exampleVulnHigh exampleContext =
      .error ⟨"vuln-high", .INVALID_CVSS⟩ ∧
    calculateALE [] exampleVulnNoScore exampleContext =
      .error ⟨"vuln-none", .MISSING_CVSS⟩ ∧
    exampleVulnHigh.id ≠ exampleVulnNoScore.id ∧
    calculateTotalRisk [] "client" "date"
        [exampleVuln, exampleVulnHigh] exampleContext =
      calculateTotalRisk [] "client" "date"
        [exampleVuln, exampleVulnNoScore] exampleContext := by
  have h1 : calculateTotalRisk [] "client" "date"
      [exampleVuln, exampleVulnHigh] exampleContext = .ok exampleProfile := by
    norm_num +decide [calculateTotalRisk, accumulateRisk, calculateALE,
      getCostPerRecord, getIndustryBreachData, estimateRecordsAtRisk,
      getRecordsMultiplier, RECORDS_PER_EMPLOYEE,
      RecordsMultiplierConfig.lookup, getExposureFactor, getARO,
      EXPOSURE_FACTORS, ANNUAL_RATE_OCCURRENCE, CVSS_THRESHOLDS,
      determineConfidenceLevel, cveTruthy, cvssInRange, CONFIDENCE_SCORING,
      totalALEOf, riskByCategoryOf, bucketStep, RiskByCategory.add,
      topRisksOf, aleDescLE, List.mergeSort,
      exampleVuln, exampleVulnHigh, exampleContext, exampleRisk,
      exampleProfile]
  have h2 : calculateTotalRisk [] "client" "date"
      [exampleVuln, exampleVulnNoScore] exampleContext = .ok exampleProfile := by
    norm_num +decide [calculateTotalRisk, accumulateRisk, calculateALE,
      getCostPerRecord, getIndustryBreachData, estimateRecordsAtRisk,
      getRecordsMultiplier, RECORDS_PER_EMPLOYEE,
      RecordsMultiplierConfig.lookup, getExposureFactor, getARO,
      EXPOSURE_FACTORS, ANNUAL_RATE_OCCURRENCE, CVSS_THRESHOLDS,
      determineConfidenceLevel, cveTruthy, cvssInRange, CONFIDENCE_SCORING,
      totalALEOf, riskByCategoryOf, bucketStep, RiskByCategory.add,
      topRisksOf, aleDescLE, List.mergeSort,
      exampleVuln, exampleVulnNoScore, exampleContext, exampleRisk,
      exampleProfile]
  refine ⟨?_, ?_, ?_, ?_⟩
  · norm_num +decide [calculateALE, CVSS_THRESHOLDS, exampleVulnHigh]
  · norm_num +decide [calculateALE, exampleVulnNoScore]
  · simp [exampleVulnHigh, exampleVulnNoScore]
  · rw [h1, h2]

/-- The comparator-induced order is transitive. -/
theorem aleDescLE_trans : ∀ a b c : RiskCalculation,
    aleDescLE a b = true → aleDescLE b c = true → aleDescLE a c = true := by
  intro a b c h1 h2
  simp only [aleDescLE, decide_eq_true_eq] at h1 h2 ⊢
  exact le_trans h2 h1

/-- The comparator-induced order is total. -/
theorem aleDescLE_total : ∀ a b : RiskCalculation,
    (aleDescLE a b || aleDescLE b a) = true := by
  intro a b
  simp only [aleDescLE, Bool.or_eq_true, decide_eq_true_eq]
  exact le_total _ _

/-- Stability of the ALE sort: the entries holding any fixed ALE value
appear in the sorted list exactly as they appear in the input list. -/
theorem mergeSort_filter_eq_ale (l : List RiskCalculation) (q : ℚ) :
    (l.mergeSort aleDescLE).filter
        (fun r => r.annualizedLossExpectancy == q) =
      l.filter (fun r => r.annualizedLossExpectancy == q) := by
  have hall : ∀ a ∈ l.filter (fun r => r.annualizedLossExpectancy == q),
      (a.annualizedLossExpectancy == q) = true :=
    fun a ha =>
      @List.of_mem_filter _ (fun r => r.annualizedLossExpectancy == q) a l ha
  have hpair : (l.filter (fun r => r.annualizedLossExpectancy == q)).Pairwise
      (fun a b => aleDescLE a b = true) := by
    apply List.pairwise_of_forall_mem_list
    intro a ha b hb
    have ha' : a.annualizedLossExpectancy = q := beq_iff_eq.mp (hall a ha)
    have hb' : b.annualizedLossExpectancy = q := beq_iff_eq.mp (hall b hb)
    simp [aleDescLE, ha', hb']
  have hsub : (l.filter (fun r => r.annualizedLossExpectancy == q)).Sublist
      (l.mergeSort aleDescLE) :=
    List.sublist_mergeSort aleDescLE_trans aleDescLE_total hpair
      (List.filter_sublist l)
  have hsub2 : (l.filter (fun r => r.annualizedLossExpectancy == q)).Sublist
      ((l.mergeSort aleDescLE).filter
        (fun r => r.annualizedLossExpectancy == q)) := by
    have hf := hsub.filter (fun r => r.annualizedLossExpectancy == q)
    rwa [List.filter_eq_self.mpr hall] at hf
  have hperm : ((l.mergeSort aleDescLE).filter
      (fun r => r.annualizedLossExpectancy == q)).Perm
        (l.filter (fun r => r.annualizedLossExpectancy == q)) :=
    (List.mergeSort_perm l aleDescLE).filter _
  exact (hsub2.eq_of_length hperm.length_eq.symm).symm

/-- C6: for every successful aggregation, `topRisks` consists of members
of `individualRisks`, has length `min 5 |individualRisks|`, is sorted in
descending ALE order, and is stable: for every ALE value, its entries with
that value form a prefix of the equally-valued entries of
`individualRisks` — which are themselves the successes in input order. -/
theorem spec_C6_topRisks_sorted {dataset : List IndustryBreachData}
    {clientId calculationDate : String}
    {vulnerabilities : List Vulnerability} {clientContext : ClientContext}
    {p : TotalRiskProfile}
    (h : calculateTotalRisk dataset clientId calculationDate vulnerabilities
        clientContext = .ok p) :
    (∀ r ∈ p.topRisks, r ∈ p.individualRisks) ∧
    p.topRisks.length = min 5 p.individualRisks.length ∧
    p.topRisks.Pairwise
      (fun a b => b.annualizedLossExpectancy ≤ a.annualizedLossExpectancy) ∧
    (∀ q : ℚ, ∃ rest,
      p.topRisks.filter (fun r => r.annualizedLossExpectancy == q) ++ rest =
        p.individualRisks.filter
          (fun r => r.annualizedLossExpectancy == q)) ∧
    p.individualRisks = successfulRisks dataset clientContext vulnerabilities := by
  obtain ⟨h1, -, -, h4⟩ := calculateTotalRisk_ok_inv h
  refine ⟨?_, ?_, ?_, ?_, h1⟩
  · intro r hr
    rw [h4] at hr
    rw [h1]
    exact ((List.mergeSort_perm _ aleDescLE).mem_iff).1
      (List.mem_of_mem_take hr)
  · rw [h4, h1]
    simp only [topRisksOf, List.length_take, List.length_mergeSort]
  · rw [h4]
    have hs := List.sorted_mergeSort aleDescLE_trans aleDescLE_total
      (successfulRisks dataset clientContext vulnerabilities)
    exact List.Pairwise.sublist (List.take_sublist 5 _)
      (hs.imp (fun hab => by simpa [aleDescLE, decide_eq_true_eq] using hab))
  · intro q
    refine ⟨(((successfulRisks dataset clientContext vulnerabilities).mergeSort
        aleDescLE).drop 5).filter
          (fun r => r.annualizedLossExpectancy == q), ?_⟩
    rw [h4, h1]
    show (((successfulRisks dataset clientContext vulnerabilities).mergeSort
        aleDescLE).take 5).filter (fun r => r.annualizedLossExpectancy == q) ++ _ = _
    rw [← List.filter_append, List.take_append_drop, mergeSort_filter_eq_ale]

/-- Witness for C6 at the concrete example batch. -/
theorem spec_C6_witness :
    (∀ r ∈ exampleProfile.topRisks, r ∈ exampleProfile.individualRisks) ∧
    exampleProfile.topRisks.length =
      min 5 exampleProfile.individualRisks.length ∧
    exampleProfile.topRisks.Pairwise
      (fun a b => b.annualizedLossExpectancy ≤ a.annualizedLossExpectancy) ∧
    (∀ q : ℚ, ∃ rest,
      exampleProfile.topRisks.filter
          (fun r => r.annualizedLossExpectancy == q) ++ rest =
        exampleProfile.individualRisks.filter
          (fun r => r.annualizedLossExpectancy == q)) ∧
    exampleProfile.individualRisks =
      successfulRisks [] exampleContext [exampleVuln, exampleVulnHigh] :=
  @spec_C6_topRisks_sorted [] "client" "date"
    [exampleVuln, exampleVulnHigh] exampleContext exampleProfile
    (by
      norm_num +decide [calculateTotalRisk, accumulateRisk, calculateALE,
        getCostPerRecord, getIndustryBreachData, estimateRecordsAtRisk,
        getRecordsMultiplier, RECORDS_PER_EMPLOYEE,
        RecordsMultiplierConfig.lookup, getExposureFactor, getARO,
        EXPOSURE_FACTORS, ANNUAL_RATE_OCCURRENCE, CVSS_THRESHOLDS,
        determineConfidenceLevel, cveTruthy, cvssInRange, CONFIDENCE_SCORING,
        totalALEOf, riskByCategoryOf, bucketStep, RiskByCategory.add,
        topRisksOf, aleDescLE, List.mergeSort,
        exampleVuln, exampleVulnHigh, exampleContext, exampleRisk,
        exampleProfile])

/-- Bucket update projected at a severity: it adds the amount exactly when
the severities coincide. -/
theorem RiskByCategory_add_get (acc : RiskByCategory)
    (sev σ : VulnerabilitySeverity) (x : ℚ) :
    (acc.add sev x).get σ = acc.get σ + (if sev = σ then x else 0) := by
  cases sev <;> cases σ <;>
    simp [RiskByCategory.add, RiskByCategory.get]

/-- The all-zero bucket record is zero at every severity. -/
theorem RiskByCategory_get_zero (σ : VulnerabilitySeverity) :
    (⟨0, 0, 0, 0⟩ : RiskByCategory).get σ = 0 := by
  cases σ <;> rfl

/-- Inversion of `Except.toOption`. -/
theorem except_toOption_eq_some {ε α : Type _} {x : Except ε α} {a : α}
    (h : x.toOption = some a) : x = .ok a := by
  cases x with
  | ok b =>
    simp only [Except.toOption, Option.some.injEq] at h
    rw [h]
  | error e => simp [Except.toOption] at h

/-- A member of the success list comes from a member of the batch, carries
its id, and is its calculation. -/
theorem mem_successfulRisks {dataset : List IndustryBreachData}
    {clientContext : ClientContext} {vulnerabilities : List Vulnerability}
    {r : RiskCalculation}
    (hr : r ∈ successfulRisks dataset clientContext vulnerabilities) :
    ∃ v ∈ vulnerabilities,
      calculateALE dataset v clientContext = .ok r ∧
      r.vulnerabilityId = v.id := by
  obtain ⟨v, hv, hvr⟩ := List.mem_filterMap.1 hr
  have hok := except_toOption_eq_some hvr
  exact ⟨v, hv, hok, calculateALE_ok_id hok⟩

/-- When the batch's vulnerability identifiers are pairwise distinct, the
aggregator's by-id lookup into the success list recovers exactly the
vulnerability's own calculation result. -/
theorem find?_successfulRisks {dataset : List IndustryBreachData}
    {clientContext : ClientContext} {vulnerabilities : List Vulnerability}
    (hnd : (vulnerabilities.map (fun v => v.id)).Nodup)
    {v : Vulnerability} (hv : v ∈ vulnerabilities) :
    (successfulRisks dataset clientContext vulnerabilities).find?
        (fun r => r.vulnerabilityId == v.id) =
      (calculateALE dataset v clientContext).toOption := by
  have hinj := List.inj_on_of_nodup_map hnd
  cases hcalc : calculateALE dataset v clientContext with
  | ok r =>
    have hmem : r ∈ successfulRisks dataset clientContext vulnerabilities :=
      List.mem_filterMap.2 ⟨v, hv, by simp [hcalc, Except.toOption]⟩
    have hrid : r.vulnerabilityId = v.id := calculateALE_ok_id hcalc
    have hsome :
        ((successfulRisks dataset clientContext vulnerabilities).find?
          (fun r => r.vulnerabilityId == v.id)).isSome :=
      List.find?_isSome.2 ⟨r, hmem, by simp [hrid]⟩
    obtain ⟨r', hr'⟩ := Option.isSome_iff_exists.1 hsome
    have hpred : r'.vulnerabilityId = v.id :=
      beq_iff_eq.mp
        (@List.find?_some _ (fun r => r.vulnerabilityId == v.id) r' _ hr')
    obtain ⟨v', hv', hok', hid'⟩ :=
      mem_successfulRisks (List.mem_of_find?_eq_some hr')
    have hvv : v' = v := hinj hv' hv (by rw [← hid', hpred])
    subst hvv
    rw [hok'] at hcalc
    rw [Except.ok.injEq] at hcalc
    subst hcalc
    simp [hr', Except.toOption]
  | error e =>
    cases hf : (successfulRisks dataset clientContext vulnerabilities).find?
        (fun r => r.vulnerabilityId == v.id) with
    | none => simp [Except.toOption]
    | some r' =>
      exfalso
      have hpred : r'.vulnerabilityId = v.id :=
        beq_iff_eq.mp
          (@List.find?_some _ (fun r => r.vulnerabilityId == v.id) r' _ hf)
      obtain ⟨v', hv', hok', hid'⟩ :=
        mem_successfulRisks (List.mem_of_find?_eq_some hf)
      have hvv : v' = v := hinj hv' hv (by rw [← hid', hpred])
      subst hvv
      rw [hok'] at hcalc
      exact absurd hcalc (by simp)

/-- The severity-grouping step, rephrased on the vulnerability's own
calculation outcome (equal to `bucketStep` on batches with distinct ids). -/
def bucketStepSpec (dataset : List IndustryBreachData)
    (clientContext : ClientContext) (acc : RiskByCategory)
    (v : Vulnerability) : RiskByCategory :=
  match (calculateALE dataset v clientContext).toOption with
  | some r => acc.add v.severity r.annualizedLossExpectancy
  | none => acc

/-- Fold functions agreeing on the list's members fold identically. -/
theorem foldl_congr_of_mem {α β : Type _} {l : List α} {f g : β → α → β}
    (h : ∀ b, ∀ a ∈ l, f b a = g b a) : ∀ b, l.foldl f b = l.foldl g b := by
  induction l with
  | nil => intro b; rfl
  | cons x l ih =>
    intro b
    rw [List.foldl_cons, List.foldl_cons, h b x (by simp)]
    exact ih (fun b a ha => h b a (by simp [ha])) (g b x)

/-- Folding the rephrased grouping step accumulates, per severity, the ALE
sum of the successes whose vulnerability declares that severity. -/
theorem bucketStepSpec_foldl (dataset : List IndustryBreachData)
    (clientContext : ClientContext) (l : List Vulnerability)
    (σ : VulnerabilitySeverity) :
    ∀ acc : RiskByCategory,
      (l.foldl (bucketStepSpec dataset clientContext) acc).get σ =
        acc.get σ +
          sumALE (successfulRisks dataset clientContext
            (l.filter (fun v => v.severity == σ))) := by
  induction l with
  | nil =>
    intro acc
    simp [successfulRisks, sumALE]
  | cons v l ih =>
    intro acc
    rw [List.foldl_cons, ih]
    by_cases hσ : v.severity = σ
    · cases hcalc : calculateALE dataset v clientContext with
      | ok r =>
        simp [bucketStepSpec, hcalc, Except.toOption, RiskByCategory_add_get,
          hσ, successfulRisks, List.filter_cons, List.filterMap_cons, sumALE,
          add_assoc]
      | error e =>
        simp [bucketStepSpec, hcalc, Except.toOption, hσ, successfulRisks,
          List.filter_cons, List.filterMap_cons, sumALE]
    · cases hcalc : calculateALE dataset v clientContext with
      | ok r =>
        simp [bucketStepSpec, hcalc, Except.toOption, RiskByCategory_add_get,
          hσ, successfulRisks, List.filter_cons, sumALE]
      | error e =>
        simp [bucketStepSpec, hcalc, Except.toOption, hσ, successfulRisks,
          List.filter_cons, sumALE]

/-- The four severity buckets partition the success list: their ALE sums
add up to the ALE sum of all successes. -/
theorem sum_buckets_eq_total (dataset : List IndustryBreachData)
    (clientContext : ClientContext) (l : List Vulnerability) :
    sumALE (successfulRisks dataset clientContext
        (l.filter (fun v => v.severity == VulnerabilitySeverity.critical))) +
      sumALE (successfulRisks dataset clientContext
        (l.filter (fun v => v.severity == VulnerabilitySeverity.high))) +
      sumALE (successfulRisks dataset clientContext
        (l.filter (fun v => v.severity == VulnerabilitySeverity.medium))) +
      sumALE (successfulRisks dataset clientContext
        (l.filter (fun v => v.severity == VulnerabilitySeverity.low))) =
      sumALE (successfulRisks dataset clientContext l) := by
  induction l with
  | nil => simp [successfulRisks, sumALE]
  | cons v l ih =>
    cases hcalc : calculateALE dataset v clientContext with
    | ok r =>
      cases hv : v.severity <;>
        · simp [successfulRisks, List.filter_cons, List.filterMap_cons,
            hcalc, Except.toOption, sumALE, hv] at ih ⊢
          linarith [ih]
    | error e =>
      cases hv : v.severity <;>
        · simp [successfulRisks, List.filter_cons, List.filterMap_cons,
            hcalc, Except.toOption, sumALE, hv] at ih ⊢
          linarith [ih]

/-- C10: for every successful aggregation over a batch with pairwise
distinct vulnerability identifiers, each severity bucket equals the ALE
sum of the successes whose vulnerability declares that severity (0 when
none), and the four buckets sum to `totalALE`. -/
theorem spec_C10_riskByCategory {dataset : List IndustryBreachData}
    {clientId calculationDate : String}
    {vulnerabilities : List Vulnerability} {clientContext : ClientContext}
    {p : TotalRiskProfile}
    (hnd : (vulnerabilities.map (fun v => v.id)).Nodup)
    (h : calculateTotalRisk dataset clientId calculationDate vulnerabilities
        clientContext = .ok p) :
    (∀ σ : VulnerabilitySeverity,
      p.riskByCategory.get σ =
        sumALE (successfulRisks dataset clientContext
          (vulnerabilities.filter (fun v => v.severity == σ)))) ∧
    p.riskByCategory.critical + p.riskByCategory.high +
      p.riskByCategory.medium + p.riskByCategory.low = p.totalALE := by
  obtain ⟨h1, h2, h3, -⟩ := calculateTotalRisk_ok_inv h
  have hfold :
      riskByCategoryOf
        (successfulRisks dataset clientContext vulnerabilities)
        vulnerabilities =
      vulnerabilities.foldl (bucketStepSpec dataset clientContext)
        ⟨0, 0, 0, 0⟩ := by
    unfold riskByCategoryOf
    apply foldl_congr_of_mem
    intro acc v hv
    unfold bucketStep bucketStepSpec
    rw [find?_successfulRisks hnd hv]
  have hget : ∀ σ : VulnerabilitySeverity,
      p.riskByCategory.get σ =
        sumALE (successfulRisks dataset clientContext
          (vulnerabilities.filter (fun v => v.severity == σ))) := by
    intro σ
    rw [h3, hfold, bucketStepSpec_foldl, RiskByCategory_get_zero, zero_add]
  refine ⟨hget, ?_⟩
  have hc : p.riskByCategory.critical =
      sumALE (successfulRisks dataset clientContext
        (vulnerabilities.filter
          (fun v => v.severity == VulnerabilitySeverity.critical))) :=
    hget VulnerabilitySeverity.critical
  have hh : p.riskByCategory.high =
      sumALE (successfulRisks dataset clientContext
        (vulnerabilities.filter
          (fun v => v.severity == VulnerabilitySeverity.high))) :=
    hget VulnerabilitySeverity.high
  have hm : p.riskByCategory.medium =
      sumALE (successfulRisks dataset clientContext
        (vulnerabilities.filter
          (fun v => v.severity == VulnerabilitySeverity.medium))) :=
    hget VulnerabilitySeverity.medium
  have hl : p.riskByCategory.low =
      sumALE (successfulRisks dataset clientContext
        (vulnerabilities.filter
          (fun v => v.severity == VulnerabilitySeverity.low))) :=
    hget VulnerabilitySeverity.low
  rw [hc, hh, hm, hl, h2, totalALEOf_eq_sumALE]
  exact sum_buckets_eq_total dataset clientContext vulnerabilities

/-- Witness for C10 at the concrete example batch: two distinct
identifiers, one success (declared critical), one failing item. -/
theorem spec_C10_witness :
    (∀ σ : VulnerabilitySeverity,
      exampleProfile.riskByCategory.get σ =
        sumALE (successfulRisks [] exampleContext
          ([exampleVuln, exampleVulnHigh].filter
            (fun v => v.severity == σ)))) ∧
    exampleProfile.riskByCategory.critical +
      exampleProfile.riskByCategory.high +
      exampleProfile.riskByCategory.medium +
      exampleProfile.riskByCategory.low = exampleProfile.totalALE :=
  @spec_C10_riskByCategory [] "client" "date"
    [exampleVuln, exampleVulnHigh] exampleContext exampleProfile
    (by decide)
    (by
      norm_num +decide [calculateTotalRisk, accumulateRisk, calculateALE,
        getCostPerRecord, getIndustryBreachData, estimateRecordsAtRisk,
        getRecordsMultiplier, RECORDS_PER_EMPLOYEE,
        RecordsMultiplierConfig.lookup, getExposureFactor, getARO,
        EXPOSURE_FACTORS, ANNUAL_RATE_OCCURRENCE, CVSS_THRESHOLDS,
        determineConfidenceLevel, cveTruthy, cvssInRange, CONFIDENCE_SCORING,
        totalALEOf, riskByCategoryOf, bucketStep, RiskByCategory.add,
        topRisksOf, aleDescLE, List.mergeSort,
        exampleVuln, exampleVulnHigh, exampleContext, exampleRisk,
        exampleProfile])
